import Mathlib

/-!
Verification development for the enhanced integration manager
(`backend/services/enhanced_integration_manager.py`): an event-driven
data-quality and cache-invalidation orchestrator for a live-sports
platform.  Python payloads (`Dict[str, Any]` values) are embedded as the
inductive family `Val`/`ValList`/`ValDict`; collaborator services (feed
client, cache, quality monitor, event bus) are modelled by explicit
behaviour records, with a raising call represented as `Except.error`.
-/

mutual

/-- Embedding of the Python values that flow through the manager's
payloads: `None`, `int`, `str`, `list`, `dict`. -/
inductive Val where
  | vnull : Val
  | vint : Int → Val
  | vstr : String → Val
  | vlist : ValList → Val
  | vdict : ValDict → Val

/-- A Python list of payload values. -/
inductive ValList where
  | nil : ValList
  | cons : Val → ValList → ValList

/-- A Python dict with string keys. -/
inductive ValDict where
  | nil : ValDict
  | cons : String → Val → ValDict → ValDict

end

/-- Build a `ValList` from a Lean list (notation convenience only). -/
def ValList.ofList : List Val → ValList
  | [] => .nil
  | x :: xs => .cons x (ValList.ofList xs)

/-- View a `ValList` as a Lean list. -/
def ValList.toList : ValList → List Val
  | .nil => []
  | .cons x xs => x :: ValList.toList xs

/-- Build a `ValDict` from a Lean association list. -/
def ValDict.ofList : List (String × Val) → ValDict
  | [] => .nil
  | (k, v) :: d => .cons k v (ValDict.ofList d)

mutual

/-- Decidable equality for embedded values. -/
def Val.decEq : (a b : Val) → Decidable (a = b)
  | .vnull, .vnull => isTrue rfl
  | .vnull, .vint _ => isFalse (fun h => Val.noConfusion h)
  | .vnull, .vstr _ => isFalse (fun h => Val.noConfusion h)
  | .vnull, .vlist _ => isFalse (fun h => Val.noConfusion h)
  | .vnull, .vdict _ => isFalse (fun h => Val.noConfusion h)
  | .vint _, .vnull => isFalse (fun h => Val.noConfusion h)
  | .vint a, .vint b =>
    if h : a = b then isTrue (by rw [h]) else isFalse (fun hh => h (by injection hh))
  | .vint _, .vstr _ => isFalse (fun h => Val.noConfusion h)
  | .vint _, .vlist _ => isFalse (fun h => Val.noConfusion h)
  | .vint _, .vdict _ => isFalse (fun h => Val.noConfusion h)
  | .vstr _, .vnull => isFalse (fun h => Val.noConfusion h)
  | .vstr _, .vint _ => isFalse (fun h => Val.noConfusion h)
  | .vstr a, .vstr b =>
    if h : a = b then isTrue (by rw [h]) else isFalse (fun hh => h (by injection hh))
  | .vstr _, .vlist _ => isFalse (fun h => Val.noConfusion h)
  | .vstr _, .vdict _ => isFalse (fun h => Val.noConfusion h)
  | .vlist _, .vnull => isFalse (fun h => Val.noConfusion h)
  | .vlist _, .vint _ => isFalse (fun h => Val.noConfusion h)
  | .vlist _, .vstr _ => isFalse (fun h => Val.noConfusion h)
  | .vlist a, .vlist b =>
    match ValList.decEq a b with
    | isTrue h => isTrue (by rw [h])
    | isFalse h => isFalse (fun hh => h (by injection hh))
  | .vlist _, .vdict _ => isFalse (fun h => Val.noConfusion h)
  | .vdict _, .vnull => isFalse (fun h => Val.noConfusion h)
  | .vdict _, .vint _ => isFalse (fun h => Val.noConfusion h)
  | .vdict _, .vstr _ => isFalse (fun h => Val.noConfusion h)
  | .vdict _, .vlist _ => isFalse (fun h => Val.noConfusion h)
  | .vdict a, .vdict b =>
    match ValDict.decEq a b with
    | isTrue h => isTrue (by rw [h])
    | isFalse h => isFalse (fun hh => h (by injection hh))

/-- Decidable equality for embedded lists. -/
def ValList.decEq : (a b : ValList) → Decidable (a = b)
  | .nil, .nil => isTrue rfl
  | .nil, .cons _ _ => isFalse (fun h => ValList.noConfusion h)
  | .cons _ _, .nil => isFalse (fun h => ValList.noConfusion h)
  | .cons x xs, .cons y ys =>
    match Val.decEq x y, ValList.decEq xs ys with
    | isTrue h1, isTrue h2 => isTrue (by rw [h1, h2])
    | isFalse h1, _ => isFalse (fun hh => h1 (by injection hh))
    | _, isFalse h2 => isFalse (fun hh => h2 (by injection hh))

/-- Decidable equality for embedded dicts. -/
def ValDict.decEq : (a b : ValDict) → Decidable (a = b)
  | .nil, .nil => isTrue rfl
  | .nil, .cons _ _ _ => isFalse (fun h => ValDict.noConfusion h)
  | .cons _ _ _, .nil => isFalse (fun h => ValDict.noConfusion h)
  | .cons k v d, .cons k2 v2 d2 =>
    match String.decEq k k2, Val.decEq v v2, ValDict.decEq d d2 with
    | isTrue h1, isTrue h2, isTrue h3 => isTrue (by rw [h1, h2, h3])
    | isFalse h1, _, _ => isFalse (fun hh => h1 (by injection hh))
    | _, isFalse h2, _ => isFalse (fun hh => h2 (by injection hh))
    | _, _, isFalse h3 => isFalse (fun hh => h3 (by injection hh))

end

instance : DecidableEq Val := Val.decEq

instance : DecidableEq ValList := ValList.decEq

instance : DecidableEq ValDict := ValDict.decEq

/-- Python truthiness for the embedded values (`if data:` / `if game_id:`). -/
def truthy : Val → Bool
  | .vnull => false
  | .vint n => !(n == 0)
  | .vstr s => !(s == "")
  | .vlist .nil => false
  | .vlist (.cons _ _) => true
  | .vdict .nil => false
  | .vdict (.cons _ _ _) => true

/-- Dictionary lookup (Python dict keys are unique; first binding wins). -/
def dget : ValDict → String → Option Val
  | .nil, _ => none
  | .cons k v rest, key => if key = k then some v else dget rest key

/-- Python `key in d`. -/
def hasKey (d : ValDict) (key : String) : Bool :=
  (dget d key).isSome

/-- Python `d.get(key)`: the value when the key is present, the `None`
object otherwise — an absent key and a present-but-null value are
indistinguishable to the caller. -/
def pyGet (d : ValDict) (key : String) : Val :=
  (dget d key).getD .vnull

/-- Python `d.values()`. -/
def dvalues : ValDict → List Val
  | .nil => []
  | .cons _ v rest => v :: dvalues rest

/-- Python `list(d)` (iteration over a dict yields its keys). -/
def dkeys : ValDict → List Val
  | .nil => []
  | .cons k _ rest => .vstr k :: dkeys rest

mutual

/-- Python `str()` of an embedded value, as used by the sport-attribution
scan (`str(data).lower()`): `None`, decimal integers, single-quoted
strings, bracketed lists, braced dicts. -/
def pyStr : Val → String
  | .vnull => "None"
  | .vint n => toString n
  | .vstr s => "\x27" ++ s ++ "\x27"
  | .vlist xs => "[" ++ pyStrList xs ++ "]"
  | .vdict d => "\x7b" ++ pyStrDict d ++ "\x7d"

/-- Comma-joined `str()` forms of a list's elements. -/
def pyStrList : ValList → String
  | .nil => ""
  | .cons x .nil => pyStr x
  | .cons x (.cons y ys) => pyStr x ++ ", " ++ pyStrList (.cons y ys)

/-- Comma-joined `'key': value` forms of a dict's entries. -/
def pyStrDict : ValDict → String
  | .nil => ""
  | .cons k v .nil => "\x27" ++ k ++ "\x27: " ++ pyStr v
  | .cons k v (.cons k2 v2 d) =>
    "\x27" ++ k ++ "\x27: " ++ pyStr v ++ ", " ++ pyStrDict (.cons k2 v2 d)

end

/-- Python `.lower()` (character-wise lowercasing). -/
def strLower (s : String) : String :=
  ⟨s.data.map Char.toLower⟩

/-- Python substring test `needle in hay` on character lists. -/
def charsContain (needle hay : List Char) : Bool :=
  hay.tails.any (fun t => needle.isPrefixOf t)

/-- Python substring test `needle in hay` on strings. -/
def strContains (hay needle : String) : Bool :=
  charsContain needle.data hay.data

/-- The keyword table of `_extract_sport_from_data`, in source order. -/
def sport_indicators : List (String × List String) :=
  [("mlb", ["baseball", "mlb"]),
   ("nba", ["basketball", "nba"]),
   ("nfl", ["football", "nfl", "american_football"]),
   ("nhl", ["hockey", "nhl", "ice_hockey"])]

/-- The `for sport, indicators in sport_indicators.items():` loop of
`_extract_sport_from_data`: first table entry with a matching indicator. -/
def findSport : List (String × List String) → String → Option String
  | [], _ => none
  | (sport, indicators) :: rest, data_str =>
    if indicators.any (fun indicator => strContains data_str indicator) then some sport
    else findSport rest data_str

/-- `_extract_sport_from_data(data)`: scans `str(data).lower()` for the
sport keyword sets; the whole body is wrapped in `try/except: return
None`, and no step of this embedding can fail, so the function is total. -/
def _extract_sport_from_data (data : Val) : Option String :=
  let data_str := strLower (pyStr data)
  findSport sport_indicators data_str

/-- The event types of the event-driven cache (`EventType`). -/
inductive EventType where
  | SCORE_UPDATE
  | GAME_STATE_CHANGE
  | ODDS_CHANGE
  | INJURY_REPORT
  | DATA_SOURCE_UPDATE
deriving DecidableEq, Repr

/-- Invalidation scopes of the event-driven cache (`InvalidationScope`). -/
inductive InvalidationScope where
  | EXACT
  | RELATED
  | PATTERN
deriving DecidableEq, Repr

/-- Modelled from the spec: the `DataSourceType` enumeration lives in the
collaborator module `data_quality_monitor` (not part of the sources); the
spec describes it as a provenance enumeration (PRIMARY_FEED /
SECONDARY_FEED), which in the manager's code appears as `SPORTRADAR` (the
primary feed) and `ODDS_API` (the secondary feed), used only through
`.value`. -/
inductive DataSourceType where
  | SPORTRADAR
  | ODDS_API
deriving DecidableEq, Repr

/-- The `.value` string of a data source member. -/
def DataSourceType.value : DataSourceType → String
  | .SPORTRADAR => "sportradar"
  | .ODDS_API => "odds_api"

/-- A cache invalidation event as assembled by the manager's calls to
`event_driven_cache.emit_event` (keyword arguments not passed at a call
site keep the collaborator's `None`/empty defaults). -/
structure CacheEvent where
  event_type : EventType
  source : String
  sport : Option String := none
  game_id : Option Val := none
  data_category : Option String := none
  payload : List (String × Val) := []
  invalidation_scope : InvalidationScope
deriving DecidableEq

/-- One iteration of the `for game in games:` loop of
`_emit_cache_events_from_data`: skip a game with a falsy id; emit a
SCORE_UPDATE when either score field is non-`None` (an absent field and a
present-but-null field both read back as `None` through `game.get`); emit
a GAME_STATE_CHANGE when the status field is truthy.  A non-dict game
raises (`game.get` does not exist), which aborts the whole `try` body. -/
def processGame (source : DataSourceType) (sport : Option String) (g : Val) :
    Except Unit (List CacheEvent) :=
  match g with
  | .vdict game =>
    let game_id := pyGet game "id"
    if !truthy game_id then .ok []
    else
      let home_score := pyGet game "home_score"
      let away_score := pyGet game "away_score"
      let scoreEvents : List CacheEvent :=
        if home_score ≠ .vnull ∨ away_score ≠ .vnull then
          [{ event_type := .SCORE_UPDATE,
             source := source.value,
             sport := sport,
             game_id := some game_id,
             payload := [("home_score", home_score), ("away_score", away_score)],
             invalidation_scope := .RELATED }]
        else []
      let game_status := pyGet game "status"
      let stateEvents : List CacheEvent :=
        if truthy game_status then
          [{ event_type := .GAME_STATE_CHANGE,
             source := source.value,
             sport := sport,
             game_id := some game_id,
             payload := [("new_state", game_status)],
             invalidation_scope := .PATTERN }]
        else []
      .ok (scoreEvents ++ stateEvents)
  | _ => .error ()

/-- The `for game in games:` loop.  The second component is `false` when
an iteration raised; events emitted by earlier iterations were already
dispatched and are kept. -/
def processGames (source : DataSourceType) (sport : Option String) :
    List Val → List CacheEvent × Bool
  | [] => ([], true)
  | g :: rest =>
    match processGame source sport g with
    | .error _ => ([], false)
    | .ok events =>
      let (restEvents, ok) := processGames source sport rest
      (events ++ restEvents, ok)

/-- Python iteration over an arbitrary value: lists yield their elements,
strings their characters, dicts their keys; other values raise
`TypeError`. -/
def pyIter : Val → Except Unit (List Val)
  | .vlist xs => .ok xs.toList
  | .vstr s => .ok (s.data.map (fun c => .vstr (String.mk [c])))
  | .vdict d => .ok (dkeys d)
  | _ => .error ()

/-- `_emit_cache_events_from_data(data_source, data)` for a dict payload,
returning the events dispatched to the event bus, in emission order.  The
body is one `try` block: an exception in the games loop is caught by the
trailing `except` and prevents the odds and injuries branches from
running, but events already dispatched stay dispatched.  `now` stands for
`datetime.now(timezone.utc).isoformat()` at the odds-branch call site. -/
def _emit_cache_events_from_data (now : String) (data_source : DataSourceType)
    (data : ValDict) : List CacheEvent :=
  let sport := _extract_sport_from_data (.vdict data)
  let gamesStep : List CacheEvent × Bool :=
    if hasKey data "games" then
      match pyIter (pyGet data "games") with
      | .error _ => ([], false)
      | .ok games => processGames data_source sport games
    else ([], true)
  match gamesStep with
  | (gameEvents, false) => gameEvents
  | (gameEvents, true) =>
    let oddsEvents : List CacheEvent :=
      if hasKey data "odds" || hasKey data "bookmakers" then
        [{ event_type := .ODDS_CHANGE,
           source := data_source.value,
           sport := sport,
           data_category := some "odds",
           payload := [("timestamp", .vstr now)],
           invalidation_scope := .PATTERN }]
      else []
    let injuryEvents : List CacheEvent :=
      if hasKey data "injuries" || hasKey data "injury_reports" then
        [{ event_type := .INJURY_REPORT,
           source := data_source.value,
           sport := sport,
           data_category := some "injuries",
           invalidation_scope := .RELATED }]
      else []
    gameEvents ++ oddsEvents ++ injuryEvents

/-- Modelled from the spec: the `SportType` enumeration lives in the
collaborator module `sportradar_service` (not part of the sources).  The
spec describes it as the enumeration of supported sports, each mapping to
a TTL multiplier; `OTHER` stands for a member that carries no multiplier
entry (the spec's "unknown sport", defaulting to multiplier 1.0). -/
inductive SportType where
  | MLB
  | NBA
  | NFL
  | NHL
  | OTHER
deriving DecidableEq, Repr

/-- The `.value` string of a sport member. -/
def SportType.value : SportType → String
  | .MLB => "mlb"
  | .NBA => "nba"
  | .NFL => "nfl"
  | .NHL => "nhl"
  | .OTHER => "other"

/-- The `base_ttls` dict of `_get_sport_specific_cache_ttl`. -/
def base_ttls : List (String × ℚ) :=
  [("live_scores", 30),
   ("player_stats", 1800),
   ("team_stats", 3600),
   ("schedules", 7200),
   ("injury_reports", 600)]

/-- Association lookup with string keys (`dict.get`). -/
def assocLookup : List (String × ℚ) → String → Option ℚ
  | [], _ => none
  | (k, x) :: rest, key => if key = k then some x else assocLookup rest key

/-- The `sport_multipliers` dict of `_get_sport_specific_cache_ttl`
(`MLB: 1.2, NBA: 0.8, NFL: 1.5, NHL: 1.0`); `dict.get(sport, 1.0)`
yields `none` here for a member without an entry. -/
def sport_multipliers : SportType → Option ℚ
  | .MLB => some (12 / 10)
  | .NBA => some (8 / 10)
  | .NFL => some (15 / 10)
  | .NHL => some 1
  | .OTHER => none

/-- `_get_sport_specific_cache_ttl(sport, data_type)`:
`int(base_ttl * sport_multiplier)`.  The Python computation is on IEEE
doubles; every reachable product `base * multiplier` is a mathematical
integer and rounds to itself in double precision, so exact rational
arithmetic with `int()` as truncation (= floor on these non-negative
values) is a faithful embedding. -/
def _get_sport_specific_cache_ttl (sport : SportType) (data_type : String) : Int :=
  let base_ttl := (assocLookup base_ttls data_type).getD 3600
  let sport_multiplier := (sport_multipliers sport).getD 1
  Int.floor (base_ttl * sport_multiplier)

/-- The `integration_metrics` dict initialized in `__init__`. -/
structure IntegrationMetrics where
  total_requests : Nat
  cache_hits : Nat
  data_quality_violations : Nat
  cross_source_discrepancies : Nat
  avg_response_time : ℚ
deriving DecidableEq, Repr

/-- The metrics values set by `__init__`. -/
def initialMetrics : IntegrationMetrics :=
  ⟨0, 0, 0, 0, 0⟩

/-- `_update_response_time_metric(response_time)`: online incremental
mean over the already-incremented `total_requests` counter. -/
def _update_response_time_metric (m : IntegrationMetrics) (response_time : ℚ) :
    IntegrationMetrics :=
  let current_avg := m.avg_response_time
  let total_requests := m.total_requests
  if total_requests > 1 then
    { m with avg_response_time :=
        (current_avg * ((total_requests : ℚ) - 1) + response_time) / (total_requests : ℚ) }
  else
    { m with avg_response_time := response_time }

/-- Modelled from the spec: the `AlertSeverity` enumeration lives in the
collaborator module `data_quality_monitor` (not part of the sources); the
spec gives its members as WARN | ERROR | CRITICAL, observed by the
manager only through `.value`. -/
inductive AlertSeverity where
  | warn
  | error
  | critical
deriving DecidableEq, Repr

/-- The `.value` string of a severity member. -/
def AlertSeverity.value : AlertSeverity → String
  | .warn => "warn"
  | .error => "error"
  | .critical => "critical"

/-- A `QualityViolation` record as consumed by the manager
(`rule_name`, `severity`, `data_source`, `field_path`, `description`). -/
structure QualityViolation where
  rule_name : String
  severity : AlertSeverity
  data_source : DataSourceType
  field_path : String
  description : String
deriving DecidableEq, Repr

/-- Outcome of one `await handler(violation)` call: the handler either
returns or raises. -/
inductive HandlerOutcome where
  | ok
  | raised
deriving DecidableEq, Repr

/-- Behaviour of a registered quality-alert handler. -/
abbrev AlertHandler := QualityViolation → HandlerOutcome

/-- The `for handler in self.quality_alert_handlers:` loop at the end of
`_handle_quality_violation`.  Each call sits in its own
`try/except Exception` (a raising handler is logged and swallowed), so
the loop records one outcome per handler and always runs to the end. -/
def notifyAlertHandlers : List AlertHandler → QualityViolation → List HandlerOutcome
  | [], _ => []
  | handler :: rest, violation =>
    let outcome := handler violation
    outcome :: notifyAlertHandlers rest violation

/-- `_handle_quality_violation(violation)`: increment the violation
counter, emit a DATA_SOURCE_UPDATE cache event for `error`/`critical`
severities, then fan out to the registered alert handlers.  Returns the
updated metrics, the events dispatched to the bus, and the per-handler
outcomes. -/
def _handle_quality_violation (handlers : List AlertHandler) (m : IntegrationMetrics)
    (violation : QualityViolation) :
    IntegrationMetrics × List CacheEvent × List HandlerOutcome :=
  let m1 := { m with data_quality_violations := m.data_quality_violations + 1 }
  let events : List CacheEvent :=
    if ["error", "critical"].contains violation.severity.value then
      [{ event_type := .DATA_SOURCE_UPDATE,
         source := violation.data_source.value,
         sport := none,
         data_category := some violation.field_path,
         payload := [("violation", .vstr violation.rule_name),
                     ("severity", .vstr violation.severity.value)],
         invalidation_scope := .PATTERN }]
    else []
  (m1, events, notifyAlertHandlers handlers violation)

/-- Behaviour of the collaborator services during one read-path call:
each field gives the outcome of the corresponding collaborator call,
`Except.error` standing for a raised exception.  The cache (`cache_get`)
returns the stored value or `None`; `now_iso` is the wall-clock ISO
timestamp and `elapsed` the measured response time in seconds. -/
structure CollabEnv where
  get_all_sports_data : Except Unit Val
  validate_data : Val → Except Unit (List QualityViolation)
  update_timeliness_metric : Except Unit Unit
  detect_anomalies : Val → Except Unit (List Val)
  cache_get : String → Val
  get_sport_data : Val
  get_player_stats : Except Unit Val
  get_live_scores : Except Unit Val
  now_iso : String
  elapsed : ℚ

/-- Mutable state of the manager relevant to the read paths:
the `initialized` flag and the `integration_metrics` dict. -/
structure ManagerState where
  initialized : Bool
  integration_metrics : IntegrationMetrics
deriving DecidableEq, Repr

/-- `self.active_sports` as set in `__init__`. -/
def active_sports : List SportType :=
  [.MLB, .NBA, .NFL, .NHL]

/-- `_monitor_incoming_data(data_source, data)`: validate, bump the
violation counter when violations came back, update timeliness, detect
anomalies.  The whole body sits in `try/except Exception`, so a raising
collaborator call ends the method early with the metric updates made so
far, and nothing propagates. -/
def _monitor_incoming_data (env : CollabEnv) (m : IntegrationMetrics) (data : Val) :
    IntegrationMetrics :=
  match env.validate_data data with
  | .error _ => m
  | .ok violations =>
    let m1 :=
      if violations.isEmpty then m
      else { m with data_quality_violations :=
               m.data_quality_violations + violations.length }
    match env.update_timeliness_metric with
    | .error _ => m1
    | .ok _ =>
      match env.detect_anomalies data with
      | .error _ => m1
      | .ok _ => m1

/-- The structured placeholder built by `_get_fallback_data` when the
cache holds nothing for a sport. -/
def fallbackPlaceholder : Val :=
  .vdict (ValDict.ofList
    [("live_scores", .vnull),
     ("schedules", .vnull),
     ("injuries", .vnull),
     ("error", .vstr "Data source unavailable, using fallback")])

/-- One iteration of the `for sport in sports:` loop of
`_get_fallback_data`: cache lookup under the fixed key
`fallback_sports_data_{sport}`, placeholder when the lookup yields
nothing truthy. -/
def fallbackEntry (env : CollabEnv) (sport : SportType) : String × Val :=
  let cache_key := "fallback_sports_data_" ++ sport.value
  let cached := env.cache_get cache_key
  (sport.value, if truthy cached then cached else fallbackPlaceholder)

/-- The per-method result envelope: a `data` or `error` field plus the
`metadata` dict the method assembles. -/
structure Metadata where
  source : String
  timestamp : String
  response_time_ms : Option ℚ := none
  cache_status : Option String := none
  cache_type : Option String := none
  quality_violations : Option Nat := none
  quality_checked : Option Bool := none
deriving DecidableEq

/-- Result envelope of the public read methods. -/
structure Envelope where
  data : Option Val := none
  metadata : Option Metadata := none
  error : Option String := none
deriving DecidableEq

/-- `_get_fallback_data(sports)`: per-sport cached data under the fixed
fallback key, else the placeholder, wrapped with `source = "fallback"`
and `cache_status = "fallback"`. -/
def _get_fallback_data (env : CollabEnv) (sports : List SportType) : Envelope :=
  { data := some (.vdict (ValDict.ofList (sports.map (fallbackEntry env)))),
    metadata := some
      { source := "fallback",
        timestamp := env.now_iso,
        cache_status := some "fallback" } }

/-- The `sports_to_fetch` selection at the top of
`get_comprehensive_sports_data` (`[sport] if sport else active_sports`;
the `SportType` members are all truthy objects). -/
def sports_to_fetch : Option SportType → List SportType
  | some sport => [sport]
  | none => active_sports

/-- The `for sport_name, data in sports_data.items():` monitoring loop of
`get_comprehensive_sports_data`.  `data and any(data.values())`
short-circuits: falsy data skips the monitor; truthy non-dict data makes
`data.values()` raise `AttributeError`, which the method's `except`
catches (error result carries the metrics accumulated so far). -/
def monitorFetched (env : CollabEnv) :
    IntegrationMetrics → ValDict → Except IntegrationMetrics IntegrationMetrics
  | m, .nil => .ok m
  | m, .cons _ data rest =>
    if truthy data then
      match data with
      | .vdict inner =>
        if (dvalues inner).any truthy then
          monitorFetched env (_monitor_incoming_data env m data) rest
        else
          monitorFetched env m rest
      | _ => .error m
    else
      monitorFetched env m rest

/-- `get_comprehensive_sports_data(sport)`: one fetch over the selected
sports, per-sport quality monitoring, response-time folding, and the
`"api"` envelope; any exception inside the `try` lands in the `except`
branch, which returns `_get_fallback_data(sports_to_fetch)`.  The
`initialized` flag is never consulted. -/
def get_comprehensive_sports_data (env : CollabEnv) (st : ManagerState)
    (sport : Option SportType) : Envelope × ManagerState :=
  let m1 := { st.integration_metrics with
              total_requests := st.integration_metrics.total_requests + 1 }
  let sports := sports_to_fetch sport
  match env.get_all_sports_data with
  | .error _ =>
    (_get_fallback_data env sports, { st with integration_metrics := m1 })
  | .ok sports_data =>
    match sports_data with
    | .vdict entries =>
      match monitorFetched env m1 entries with
      | .error m2 =>
        (_get_fallback_data env sports, { st with integration_metrics := m2 })
      | .ok m2 =>
        let response_time := env.elapsed
        let m3 := _update_response_time_metric m2 response_time
        ({ data := some sports_data,
           metadata := some
             { source := "sportradar",
               timestamp := env.now_iso,
               response_time_ms := some (response_time * 1000),
               cache_status := some "api" } },
         { st with integration_metrics := m3 })
    | _ =>
      (_get_fallback_data env sports, { st with integration_metrics := m1 })

/-- `get_enhanced_player_data(sport, player_id, user_id)`: sport-aware
cache consultation, hit/miss envelopes, and the `except` branch turning a
raised exception into an `error` payload (its text is the stringified
exception, abstracted here as "exception").  The `initialized` flag is
never consulted. -/
def get_enhanced_player_data (env : CollabEnv) (st : ManagerState)
    (sport : SportType) (player_id : String) (user_id : Option String) :
    Envelope × ManagerState :=
  let m1 := { st.integration_metrics with
              total_requests := st.integration_metrics.total_requests + 1 }
  let cached_data := env.get_sport_data
  if truthy cached_data then
    let m2 := { m1 with cache_hits := m1.cache_hits + 1 }
    ({ data := some cached_data,
       metadata := some
         { source := "cache",
           timestamp := env.now_iso,
           cache_status := some "hit",
           cache_type := some "sport_aware" } },
     { st with integration_metrics := m2 })
  else
    match env.get_player_stats with
    | .error _ => ({ error := some "exception" }, { st with integration_metrics := m1 })
    | .ok player_data =>
      if truthy player_data then
        match env.validate_data (.vdict (.cons "player" player_data .nil)) with
        | .error _ =>
          ({ error := some "exception" }, { st with integration_metrics := m1 })
        | .ok violations =>
          let m2 := _update_response_time_metric m1 env.elapsed
          ({ data := some player_data,
             metadata := some
               { source := "sportradar",
                 timestamp := env.now_iso,
                 response_time_ms := some (env.elapsed * 1000),
                 cache_status := some "miss",
                 quality_violations := some violations.length,
                 cache_type := some "sport_aware" } },
           { st with integration_metrics := m2 })
      else
        ({ error := some "Player data not available" },
         { st with integration_metrics := m1 })

/-- `get_live_scores_with_quality_monitoring(sport)`: live fetch, quality
monitoring, best-effort cache warming (external effect only, itself
wrapped in `try/except`), and the live envelope;  a falsy live result
yields the explicit error payload, a raised exception the `except`
branch's error payload.  The `initialized` flag is never consulted. -/
def get_live_scores_with_quality_monitoring (env : CollabEnv) (st : ManagerState)
    (sport : SportType) : Envelope × ManagerState :=
  match env.get_live_scores with
  | .error _ => ({ error := some "exception" }, st)
  | .ok live_data =>
    if truthy live_data then
      let m1 := _monitor_incoming_data env st.integration_metrics live_data
      ({ data := some live_data,
         metadata := some
           { source := "sportradar_live",
             timestamp := env.now_iso,
             quality_checked := some true } },
       { st with integration_metrics := m1 })
    else
      ({ error := some "Live scores not available" }, st)

/-- The fold of `_update_response_time_metric` over a sequence of
samples, with `total_requests` incremented before each sample exactly as
on the read paths (`self.integration_metrics["total_requests"] += 1`
before the elapsed time is folded in). -/
def applyResponseSamples (m : IntegrationMetrics) : List ℚ → IntegrationMetrics
  | [] => m
  | x :: rest =>
    applyResponseSamples
      (_update_response_time_metric
        { m with total_requests := m.total_requests + 1 } x)
      rest

/-- The §8 example payload
`{games: [{id: "g1", home_score: 3, away_score: 2, status: "live"}]}`. -/
def scorePayload : ValDict :=
  ValDict.ofList
    [("games", .vlist (ValList.ofList
      [.vdict (ValDict.ofList
        [("id", .vstr "g1"),
         ("home_score", .vint 3),
         ("away_score", .vint 2),
         ("status", .vstr "live")])]))]

/-- A game record whose `home_score` field is present but null. -/
def nullScoreGame : ValDict :=
  ValDict.ofList [("id", .vstr "g1"), ("home_score", .vnull)]

/-- A games-bearing payload whose only game has a present-but-null
`home_score`. -/
def nullScorePayload : ValDict :=
  ValDict.ofList [("games", .vlist (ValList.ofList [.vdict nullScoreGame]))]

/-- The claim's base-lifetime table, stated the way the spec words it
(spec side of the refinement for C7). -/
def specBaseTTL (category : String) : ℚ :=
  if category = "live_scores" then 30
  else if category = "player_stats" then 1800
  else if category = "team_stats" then 3600
  else if category = "schedules" then 7200
  else if category = "injury_reports" then 600
  else 3600

/-- The claim's per-sport multiplier table, stated the way the spec words
it (spec side of the refinement for C7): MLB 1.2, NBA 0.8, NFL 1.5, NHL
1.0, unknown sport 1.0. -/
def specSportMultiplier : SportType → ℚ
  | .MLB => 12 / 10
  | .NBA => 8 / 10
  | .NFL => 15 / 10
  | .NHL => 1
  | .OTHER => 1

/-- A collaborator behaviour in which the feed fetch succeeds with
non-empty per-sport data but the quality monitor's `validate_data` raises
on every payload. -/
def monitorRaisingEnv : CollabEnv :=
  { get_all_sports_data :=
      .ok (.vdict (.cons "mlb" (.vdict (.cons "x" (.vint 1) .nil)) .nil)),
    validate_data := fun _ => .error (),
    update_timeliness_metric := .ok (),
    detect_anomalies := fun _ => .ok [],
    cache_get := fun _ => .vnull,
    get_sport_data := .vnull,
    get_player_stats := .ok .vnull,
    get_live_scores := .ok .vnull,
    now_iso := "t",
    elapsed := 0 }

/-- A collaborator behaviour with a successful feed fetch, used to show
an uninitialized manager proceeding with the operation. -/
def proceedEnv : CollabEnv :=
  { get_all_sports_data :=
      .ok (.vdict (.cons "mlb" (.vdict (.cons "games" (.vlist .nil) .nil)) .nil)),
    validate_data := fun _ => .ok [],
    update_timeliness_metric := .ok (),
    detect_anomalies := fun _ => .ok [],
    cache_get := fun _ => .vnull,
    get_sport_data := .vnull,
    get_player_stats := .ok .vnull,
    get_live_scores := .ok .vnull,
    now_iso := "t",
    elapsed := 0 }

/-- A dict-shaped game record never makes its loop iteration raise:
`processGame` on a `vdict` always returns `Except.ok`. -/
theorem processGame_vdict_ok (source : DataSourceType) (sport : Option String)
    (gd : ValDict) : ∃ events, processGame source sport (.vdict gd) = .ok events := by
  simp only [processGame]
  split_ifs <;> exact ⟨_, rfl⟩

/-- Membership helper for the games loop: events returned by
`processGame` for one game survive into `processGames` over any list that
reaches that game, i.e. any list whose prefix before the game consists of
dict records (non-dict records abort the loop earlier). -/
theorem processGames_mem (source : DataSourceType) (sport : Option String)
    (pre : List Val) (hpre : ∀ g ∈ pre, ∃ gd, g = Val.vdict gd)
    (g : Val) (events : List CacheEvent)
    (hg : processGame source sport g = .ok events)
    (post : List Val) (e : CacheEvent) (he : e ∈ events) :
    e ∈ (processGames source sport (pre ++ g :: post)).1 := by
  induction pre with
  | nil =>
    simp only [List.nil_append, processGames, hg]
    exact List.mem_append_left _ he
  | cons p rest ih =>
    obtain ⟨gd, rfl⟩ := hpre p (by simp)
    have hrest : ∀ g ∈ rest, ∃ gd, g = Val.vdict gd := fun x hx => hpre x (by simp [hx])
    obtain ⟨evts, hp⟩ := processGame_vdict_ok source sport gd
    have hmem := ih hrest
    simp only [List.cons_append, processGames, hp]
    cases hq : processGames source sport (rest ++ g :: post) with
    | mk l b =>
      simp only [hq] at hmem
      exact List.mem_append_right _ hmem

/-- C10: the sport-attribution heuristic `_extract_sport_from_data` is
total (the embedding is a Lean function; the `try/except` means no input
raises) and returns `none` or one of exactly "mlb", "nba", "nfl", "nhl";
the result is determined by keyword containment in the serialized
lowercased payload tested in the fixed priority order mlb, nba, nfl, nhl
— not by the textual position of the first matching keyword, as the
payload "nfl baseball" (nfl keyword first in the text) shows — and it is
`none` exactly when no sport keyword occurs. -/
theorem c10_extract_sport_range_and_priority (data : Val) :
    (_extract_sport_from_data data = none ∨
     _extract_sport_from_data data = some "mlb" ∨
     _extract_sport_from_data data = some "nba" ∨
     _extract_sport_from_data data = some "nfl" ∨
     _extract_sport_from_data data = some "nhl") ∧
    _extract_sport_from_data data =
      (if ["baseball", "mlb"].any
            (fun indicator => strContains (strLower (pyStr data)) indicator) then
         some "mlb"
       else if ["basketball", "nba"].any
            (fun indicator => strContains (strLower (pyStr data)) indicator) then
         some "nba"
       else if ["football", "nfl", "american_football"].any
            (fun indicator => strContains (strLower (pyStr data)) indicator) then
         some "nfl"
       else if ["hockey", "nhl", "ice_hockey"].any
            (fun indicator => strContains (strLower (pyStr data)) indicator) then
         some "nhl"
       else none) ∧
    _extract_sport_from_data (.vstr "nfl baseball") = some "mlb" := by
  have h : _extract_sport_from_data data =
      (if ["baseball", "mlb"].any
            (fun indicator => strContains (strLower (pyStr data)) indicator) then
         some "mlb"
       else if ["basketball", "nba"].any
            (fun indicator => strContains (strLower (pyStr data)) indicator) then
         some "nba"
       else if ["football", "nfl", "american_football"].any
            (fun indicator => strContains (strLower (pyStr data)) indicator) then
         some "nfl"
       else if ["hockey", "nhl", "ice_hockey"].any
            (fun indicator => strContains (strLower (pyStr data)) indicator) then
         some "nhl"
       else none) := rfl
  refine ⟨?_, h, by decide⟩
  rw [h]
  split_ifs <;> simp

/-- C2: on the payload
`{games: [{id: "g1", home_score: 3, away_score: 2, status: "live"}]}`
from the primary feed source, `_emit_cache_events_from_data` emits
exactly two events: a SCORE_UPDATE with scope RELATED and game_id "g1"
carrying both score fields, then a GAME_STATE_CHANGE with scope PATTERN,
game_id "g1" and new_state "live"; no ODDS_CHANGE or INJURY_REPORT
appears (whatever the wall-clock timestamp is). -/
theorem c2_emit_score_and_state_events (now : String) :
    _emit_cache_events_from_data now .SPORTRADAR scorePayload =
      [{ event_type := .SCORE_UPDATE,
         source := "sportradar",
         sport := none,
         game_id := some (.vstr "g1"),
         payload := [("home_score", .vint 3), ("away_score", .vint 2)],
         invalidation_scope := .RELATED },
       { event_type := .GAME_STATE_CHANGE,
         source := "sportradar",
         sport := none,
         game_id := some (.vstr "g1"),
         payload := [("new_state", .vstr "live")],
         invalidation_scope := .PATTERN }] := rfl

/-- C3 counterexample: in the payload
`{games: [{id: "g1", home_score: null}]}` the game has a non-empty id and
a present home-score field whose value is null, yet
`_emit_cache_events_from_data` emits no event at all — `game.get`
collapses a present-but-null score into `None`, so the
`is not None` guard fails and no SCORE_UPDATE is produced, refuting the
claim's "even when the present field's value is null". -/
theorem c3_counterexample :
    hasKey nullScoreGame "home_score" = true ∧
    truthy (pyGet nullScoreGame "id") = true ∧
    _emit_cache_events_from_data "t" .SPORTRADAR nullScorePayload = [] :=
  ⟨rfl, rfl, rfl⟩

/-- C3 (amended): for every game record (a dict) with a truthy identifier
in a games-bearing payload whose games entry is a list, reached by the
loop (every earlier element is a dict record), if the home-score or
away-score field is present **with a non-null value**, a SCORE_UPDATE
event with scope RELATED carrying both score fields is emitted for that
game; a score field that is present but null is treated exactly like an
absent one. -/
theorem c3_amended_score_update_emitted (now : String) (src : DataSourceType)
    (d : ValDict) (games : ValList) (pre post : List Val) (game : ValDict)
    (hgames : dget d "games" = some (.vlist games))
    (hsplit : games.toList = pre ++ Val.vdict game :: post)
    (hpre : ∀ g ∈ pre, ∃ gd, g = Val.vdict gd)
    (hid : truthy (pyGet game "id") = true)
    (hscore : pyGet game "home_score" ≠ Val.vnull ∨ pyGet game "away_score" ≠ Val.vnull) :
    ({ event_type := .SCORE_UPDATE,
       source := src.value,
       sport := _extract_sport_from_data (.vdict d),
       game_id := some (pyGet game "id"),
       payload := [("home_score", pyGet game "home_score"),
                   ("away_score", pyGet game "away_score")],
       invalidation_scope := .RELATED } : CacheEvent) ∈
      _emit_cache_events_from_data now src d := by
  have hkey : hasKey d "games" = true := by simp [hasKey, hgames]
  have hget : pyGet d "games" = .vlist games := by simp [pyGet, hgames]
  have hok : processGame src (_extract_sport_from_data (.vdict d)) (.vdict game) =
      .ok (({ event_type := .SCORE_UPDATE,
              source := src.value,
              sport := _extract_sport_from_data (.vdict d),
              game_id := some (pyGet game "id"),
              payload := [("home_score", pyGet game "home_score"),
                          ("away_score", pyGet game "away_score")],
              invalidation_scope := .RELATED } : CacheEvent) ::
            (if truthy (pyGet game "status") = true then
              [{ event_type := .GAME_STATE_CHANGE,
                 source := src.value,
                 sport := _extract_sport_from_data (.vdict d),
                 game_id := some (pyGet game "id"),
                 payload := [("new_state", pyGet game "status")],
                 invalidation_scope := .PATTERN }]
             else [])) := by
    simp only [processGame, hid, Bool.not_true, Bool.false_eq_true, if_false, if_pos hscore,
      List.singleton_append]
  have hmem := processGames_mem src (_extract_sport_from_data (.vdict d)) pre hpre
    (.vdict game) _ hok post _ (List.mem_cons_self _ _)
  simp only [_emit_cache_events_from_data, hkey, if_true, hget, pyIter, hsplit]
  cases hq : processGames src (_extract_sport_from_data (.vdict d))
      (pre ++ Val.vdict game :: post) with
  | mk l b =>
    simp only [hq] at hmem
    cases b with
    | false => exact hmem
    | true => exact List.mem_append_left _ (List.mem_append_left _ hmem)

/-- Witness for the amended C3 theorem, instantiated on the concrete
payload `{games: [{id: "g1", home_score: 3, away_score: 2, status:
"live"}]}`: all hypotheses hold there and the SCORE_UPDATE event is in
the emitted list. -/
theorem c3_amended_score_update_emitted_witness :
    ({ event_type := .SCORE_UPDATE,
       source := "sportradar",
       sport := none,
       game_id := some (.vstr "g1"),
       payload := [("home_score", .vint 3), ("away_score", .vint 2)],
       invalidation_scope := .RELATED } : CacheEvent) ∈
      _emit_cache_events_from_data "t" .SPORTRADAR scorePayload := by
  have h := c3_amended_score_update_emitted "t" .SPORTRADAR scorePayload
    (ValList.ofList
      [.vdict (ValDict.ofList
        [("id", .vstr "g1"), ("home_score", .vint 3),
         ("away_score", .vint 2), ("status", .vstr "live")])])
    [] []
    (ValDict.ofList
      [("id", .vstr "g1"), ("home_score", .vint 3),
       ("away_score", .vint 2), ("status", .vstr "live")])
    rfl rfl (by simp) rfl (Or.inl (by decide))
  exact h

/-- C5: `_handle_quality_violation` increments the quality-violation
counter by exactly one regardless of severity, and emits a cache event
iff the severity is ERROR or CRITICAL — in which case it emits exactly
one DATA_SOURCE_UPDATE event with invalidation scope PATTERN whose
payload carries the rule name and severity (the data category is the
violation's field path, the sport is left unset); a WARN violation emits
nothing, since the if-characterization reduces to `[]` at `.warn`. -/
theorem c5_violation_counter_and_event (handlers : List AlertHandler)
    (m : IntegrationMetrics) (violation : QualityViolation) :
    (_handle_quality_violation handlers m violation).1.data_quality_violations
      = m.data_quality_violations + 1 ∧
    (_handle_quality_violation handlers m violation).2.1 =
      (if violation.severity = .error ∨ violation.severity = .critical then
        [{ event_type := .DATA_SOURCE_UPDATE,
           source := violation.data_source.value,
           sport := none,
           data_category := some violation.field_path,
           payload := [("violation", .vstr violation.rule_name),
                       ("severity", .vstr violation.severity.value)],
           invalidation_scope := .PATTERN }]
       else []) := by
  refine ⟨rfl, ?_⟩
  cases violation with
  | mk rule_name severity data_source field_path description =>
    cases severity <;> simp [_handle_quality_violation, AlertSeverity.value]

/-- The handler loop records exactly one outcome per registered handler,
in registration order. -/
theorem notifyAlertHandlers_map (hs : List AlertHandler) (violation : QualityViolation) :
    notifyAlertHandlers hs violation = hs.map (fun handler => handler violation) := by
  induction hs with
  | nil => rfl
  | cons p rest ih => simp [notifyAlertHandlers, ih]

/-- C6: the handler fan-out of `_handle_quality_violation` invokes every
registered handler in registration order, one recorded outcome per
handler, even when a handler in the middle raises — the per-handler
`try/except` swallows the exception, so the handlers after it still run
and nothing propagates out of the method (the embedding returns the full
outcome list as a total function). -/
theorem c6_handler_fanout_isolation (pre : List AlertHandler) (h : AlertHandler)
    (post : List AlertHandler) (m : IntegrationMetrics)
    (violation : QualityViolation) :
    (_handle_quality_violation (pre ++ h :: post) m violation).2.2 =
      pre.map (fun handler => handler violation) ++
        h violation :: post.map (fun handler => handler violation) := by
  show notifyAlertHandlers (pre ++ h :: post) violation = _
  simp [notifyAlertHandlers_map]

/-- C9: provided the alert handlers are external observers (in this
embedding a handler returns an outcome and cannot write the manager's
metrics), `_handle_quality_violation` changes only the
`data_quality_violations` counter: `total_requests`, `cache_hits`,
`cross_source_discrepancies` and `avg_response_time` are unchanged for
every starting metrics state and every violation. -/
theorem c9_violation_frame (handlers : List AlertHandler)
    (m : IntegrationMetrics) (violation : QualityViolation) :
    (_handle_quality_violation handlers m violation).1.total_requests
      = m.total_requests ∧
    (_handle_quality_violation handlers m violation).1.cache_hits
      = m.cache_hits ∧
    (_handle_quality_violation handlers m violation).1.cross_source_discrepancies
      = m.cross_source_discrepancies ∧
    (_handle_quality_violation handlers m violation).1.avg_response_time
      = m.avg_response_time :=
  ⟨rfl, rfl, rfl, rfl⟩

/-- C7: for every sport and category, the TTL is the truncation of
base × multiplier with the claimed base table (3600 for an unknown
category) and the claimed per-sport multipliers (1.0 for a sport without
an entry); in particular ttl(NBA, live_scores) = 24 and
ttl(NFL, schedules) = 10800. -/
theorem c7_ttl_refines_spec_tables (sport : SportType) (category : String) :
    _get_sport_specific_cache_ttl sport category
      = Int.floor (specBaseTTL category * specSportMultiplier sport) ∧
    _get_sport_specific_cache_ttl .NBA "live_scores" = 24 ∧
    _get_sport_specific_cache_ttl .NFL "schedules" = 10800 := by
  refine ⟨?_, ?_, ?_⟩
  · have hbase : (assocLookup base_ttls category).getD 3600 = specBaseTTL category := by
      simp only [assocLookup, base_ttls, specBaseTTL]
      split_ifs <;> rfl
    have hmult : (sport_multipliers sport).getD 1 = specSportMultiplier sport := by
      cases sport <;> rfl
    simp only [_get_sport_specific_cache_ttl, hbase, hmult]
  · simp +decide only [_get_sport_specific_cache_ttl, assocLookup, base_ttls,
      sport_multipliers, Option.getD]
    norm_num
  · simp +decide only [_get_sport_specific_cache_ttl, assocLookup, base_ttls,
      sport_multipliers, Option.getD]
    norm_num

/-- Invariant of the response-time fold: the request counter advances by
one per sample, and the running average times the running request count
equals the accumulated sum of the samples seen. -/
theorem applyResponseSamples_invariant (xs : List ℚ) :
    ∀ m : IntegrationMetrics,
      (applyResponseSamples m xs).total_requests = m.total_requests + xs.length ∧
      (applyResponseSamples m xs).avg_response_time
          * ((m.total_requests : ℚ) + (xs.length : ℚ))
        = m.avg_response_time * (m.total_requests : ℚ) + xs.sum := by
  induction xs with
  | nil => intro m; simp [applyResponseSamples]
  | cons x rest ih =>
    intro m
    set m' := _update_response_time_metric
      { m with total_requests := m.total_requests + 1 } x with hm'
    have htot : m'.total_requests = m.total_requests + 1 := by
      simp only [hm', _update_response_time_metric]
      split_ifs <;> rfl
    have havg : m'.avg_response_time * ((m.total_requests : ℚ) + 1)
        = m.avg_response_time * (m.total_requests : ℚ) + x := by
      simp only [hm', _update_response_time_metric]
      rcases Nat.eq_zero_or_pos m.total_requests with h0 | hpos
      · rw [h0]
        norm_num
      · have hcond : m.total_requests + 1 > 1 := by omega
        rw [if_pos hcond]
        have hne : ((m.total_requests : ℚ) + 1) ≠ 0 := by positivity
        push_cast
        field_simp
    obtain ⟨ih1, ih2⟩ := ih m'
    rw [htot] at ih1 ih2
    constructor
    · simp only [applyResponseSamples, ih1, List.length_cons]
      omega
    · simp only [applyResponseSamples, List.length_cons, List.sum_cons]
      push_cast at ih2 ⊢
      linear_combination ih2 + havg

/-- C8: folding the update rule of `_update_response_time_metric` over
any sequence of samples — the request counter incremented before each
sample, exactly as on the read paths — leaves `avg_response_time` equal
to the arithmetic mean of the samples (exact, over rational arithmetic),
and `total_requests` equal to the number of samples. -/
theorem c8_incremental_mean_is_arithmetic_mean (samples : List ℚ) :
    (applyResponseSamples initialMetrics samples).total_requests = samples.length ∧
    (applyResponseSamples initialMetrics samples).avg_response_time
      = samples.sum / (samples.length : ℚ) := by
  obtain ⟨h1, h2⟩ := applyResponseSamples_invariant samples initialMetrics
  simp only [initialMetrics] at h1 h2
  refine ⟨by simpa using h1, ?_⟩
  cases samples with
  | nil => simp [applyResponseSamples, initialMetrics]
  | cons y ys =>
    have hlen : (((y :: ys).length : ℕ) : ℚ) ≠ 0 := by
      simp only [List.length_cons]
      push_cast
      have hnn : (0 : ℚ) ≤ (ys.length : ℚ) := Nat.cast_nonneg ys.length
      intro hzero
      linarith
    have h2' : (applyResponseSamples initialMetrics (y :: ys)).avg_response_time
        * (((y :: ys).length : ℕ) : ℚ) = (y :: ys).sum := by
      simpa [initialMetrics] using h2
    rw [eq_div_iff hlen]
    exact h2'

/-- C1 counterexample: an exception does occur during monitoring (the
monitor's `validate_data` raises on the fetched payload), yet
`get_comprehensive_sports_data` returns the normal envelope with
cache_status "api", not "fallback" — the `try/except` inside
`_monitor_incoming_data` swallows monitor exceptions before they can
reach the method's fallback branch, refuting the claim's "if any
exception occurs during the fetch or monitoring ... cache_status tag is
fallback". -/
theorem c1_counterexample :
    monitorRaisingEnv.validate_data (.vdict (.cons "x" (.vint 1) .nil)) = .error () ∧
    (get_comprehensive_sports_data monitorRaisingEnv
        ⟨true, initialMetrics⟩ none).1.metadata.map Metadata.cache_status
      = some (some "api") :=
  ⟨rfl, rfl⟩

/-- C1 (amended): `get_comprehensive_sports_data` never raises and always
returns a well-formed envelope whose cache_status is "api" or "fallback";
an exception raised by the fetch itself yields exactly the fallback
envelope, whose per-sport data comes from the cache under the fixed key
`fallback_sports_data_{sport}` or, when the cache holds nothing truthy
for that key, the structured "unavailable" placeholder.  An exception
raised inside the quality monitor, by contrast, is swallowed inside the
monitoring step and the normal "api" envelope is returned. -/
theorem c1_amended_fallback_on_fetch_exception (env : CollabEnv) (st : ManagerState)
    (sport : Option SportType) :
    (∃ md, (get_comprehensive_sports_data env st sport).1.metadata = some md ∧
      (md.cache_status = some "api" ∨ md.cache_status = some "fallback")) ∧
    (get_comprehensive_sports_data { env with get_all_sports_data := .error () }
        st sport).1
      = _get_fallback_data env (sports_to_fetch sport) ∧
    _get_fallback_data env (sports_to_fetch sport) =
      { data := some (.vdict (ValDict.ofList ((sports_to_fetch sport).map (fun s =>
          (s.value,
           if truthy (env.cache_get ("fallback_sports_data_" ++ s.value)) then
             env.cache_get ("fallback_sports_data_" ++ s.value)
           else fallbackPlaceholder))))),
        metadata := some
          { source := "fallback",
            timestamp := env.now_iso,
            cache_status := some "fallback" } } := by
  refine ⟨?_, rfl, rfl⟩
  obtain ⟨fetch, val, tim, anom, cg, gsd, gps, gls, now, el⟩ := env
  unfold get_comprehensive_sports_data
  cases fetch with
  | error u => exact ⟨_, rfl, Or.inr rfl⟩
  | ok sports_data =>
    cases sports_data with
    | vnull => exact ⟨_, rfl, Or.inr rfl⟩
    | vint n => exact ⟨_, rfl, Or.inr rfl⟩
    | vstr s => exact ⟨_, rfl, Or.inr rfl⟩
    | vlist l => exact ⟨_, rfl, Or.inr rfl⟩
    | vdict entries =>
      dsimp only
      split
      · exact ⟨_, rfl, Or.inr rfl⟩
      · exact ⟨_, rfl, Or.inl rfl⟩

/-- C4: none of the three public data-access methods consults the
`initialized` flag — for every collaborator behaviour, metrics state and
argument, the returned envelope and metrics are identical whether the
manager is Ready or not, and concretely a fresh uninitialized manager's
comprehensive fetch proceeds (the feed is consulted, the request counter
is incremented, and the normal "api" envelope comes back) instead of
failing with a NotInitialized error. -/
theorem c4_read_methods_ignore_initialized :
    (∀ (env : CollabEnv) (m : IntegrationMetrics) (sport : Option SportType) (b : Bool),
      (get_comprehensive_sports_data env ⟨b, m⟩ sport).1
        = (get_comprehensive_sports_data env ⟨true, m⟩ sport).1 ∧
      (get_comprehensive_sports_data env ⟨b, m⟩ sport).2.integration_metrics
        = (get_comprehensive_sports_data env ⟨true, m⟩ sport).2.integration_metrics) ∧
    (∀ (env : CollabEnv) (m : IntegrationMetrics) (sport : SportType)
        (player_id : String) (user_id : Option String) (b : Bool),
      (get_enhanced_player_data env ⟨b, m⟩ sport player_id user_id).1
        = (get_enhanced_player_data env ⟨true, m⟩ sport player_id user_id).1 ∧
      (get_enhanced_player_data env ⟨b, m⟩ sport player_id user_id).2.integration_metrics
        = (get_enhanced_player_data env ⟨true, m⟩ sport player_id user_id).2.integration_metrics) ∧
    (∀ (env : CollabEnv) (m : IntegrationMetrics) (sport : SportType) (b : Bool),
      (get_live_scores_with_quality_monitoring env ⟨b, m⟩ sport).1
        = (get_live_scores_with_quality_monitoring env ⟨true, m⟩ sport).1 ∧
      (get_live_scores_with_quality_monitoring env ⟨b, m⟩ sport).2.integration_metrics
        = (get_live_scores_with_quality_monitoring env ⟨true, m⟩ sport).2.integration_metrics) ∧
    (get_comprehensive_sports_data proceedEnv ⟨false, initialMetrics⟩
        (some .MLB)).1.metadata.map Metadata.cache_status = some (some "api") ∧
    (get_comprehensive_sports_data proceedEnv ⟨false, initialMetrics⟩
        (some .MLB)).2.integration_metrics.total_requests = 1 := by
  refine ⟨?_, ?_, ?_, rfl, rfl⟩
  · intro env m sport b
    obtain ⟨fetch, val, tim, anom, cg, gsd, gps, gls, now, el⟩ := env
    unfold get_comprehensive_sports_data
    cases fetch with
    | error u => exact ⟨rfl, rfl⟩
    | ok sports_data =>
      cases sports_data with
      | vnull => exact ⟨rfl, rfl⟩
      | vint n => exact ⟨rfl, rfl⟩
      | vstr s => exact ⟨rfl, rfl⟩
      | vlist l => exact ⟨rfl, rfl⟩
      | vdict entries =>
        dsimp only
        split
        · exact ⟨rfl, rfl⟩
        · exact ⟨rfl, rfl⟩
  · intro env m sport player_id user_id b
    obtain ⟨fetch, val, tim, anom, cg, gsd, gps, gls, now, el⟩ := env
    unfold get_enhanced_player_data
    dsimp only
    split
    · exact ⟨rfl, rfl⟩
    · cases gps with
      | error u => exact ⟨rfl, rfl⟩
      | ok player_data =>
        dsimp only
        split
        · split
          · exact ⟨rfl, rfl⟩
          · exact ⟨rfl, rfl⟩
        · exact ⟨rfl, rfl⟩
  · intro env m sport b
    obtain ⟨fetch, val, tim, anom, cg, gsd, gps, gls, now, el⟩ := env
    unfold get_live_scores_with_quality_monitoring
    cases gls with
    | error u => exact ⟨rfl, rfl⟩
    | ok live_data =>
      dsimp only
      split
      · exact ⟨rfl, rfl⟩
      · exact ⟨rfl, rfl⟩
